import Mathlib

/-!
Verification of the webhook relay in src/app/api/webhook/route.ts.

The relay receives a POST request, parses its raw body as JSON, handles a
subscription-verification handshake, validates an HMAC signature header,
derives a small record from the payload and upserts it into a remote
collection.  This file gives a shallow embedding of that handler and proves
properties of it.

Modelling conventions:
  * The external HMAC-SHA256 primitive (crypto.createHmac(...).digest("hex"))
    is an abstract parameter `hm : String → String → String` taking the key
    and the message to the hex digest string.  Everything the handler does
    with it is modelled faithfully; the digest itself is opaque.
  * The remote HTTP transport (fetch) is an abstract parameter
    `net : HttpRequest → Nat × Option Json` returning the response status and
    the result of decoding the response body as JSON (`none` when
    res.json() rejects, in which case the code falls back to the empty object).
  * JavaScript exceptions (TypeError from property access on
    undefined/null, SyntaxError from JSON.parse) are modelled with
    `Except String`; an `Except.error` is an unhandled fault of the handler.
  * JSON numbers are kept as their source lexeme (`Json.num s`); no claim
    depends on numeric values, only on truthiness, which is computed from
    the lexeme.
  * Response bodies produced with JSON.stringify are modelled structurally
    (`RespBody.json j`); plain string bodies are `RespBody.text s`.
-/

/-- JSON values as produced by JSON.parse.  Object fields keep source order
and possible duplicate keys; property lookup takes the last occurrence,
matching JavaScript semantics. -/
inductive Json where
  | null : Json
  | bool (b : Bool) : Json
  | num (lexeme : String) : Json
  | str (s : String) : Json
  | arr (elems : List Json) : Json
  | obj (fields : List (String × Json)) : Json

/-- Whitespace accepted by JSON.parse. -/
def isJsonWs (c : Char) : Bool :=
  c = ' ' || c = '\t' || c = '\n' || c = '\x0d'

/-- Drop leading JSON whitespace. -/
def skipWs : List Char → List Char
  | [] => []
  | c :: cs => if isJsonWs c then skipWs cs else c :: cs

/-- Value of a hexadecimal digit. -/
def hexDigitVal (c : Char) : Option Nat :=
  if '0' ≤ c ∧ c ≤ '9' then some (c.toNat - 48)
  else if 'a' ≤ c ∧ c ≤ 'f' then some (c.toNat - 87)
  else if 'A' ≤ c ∧ c ≤ 'F' then some (c.toNat - 55)
  else none

/-- Body of a JSON string literal, after the opening quote.  Handles the
JSON escapes.  A unicode escape becomes the scalar with that code; surrogate
halves (which JavaScript keeps as UTF-16 code units) are approximated by the
null character via Char.ofNat on an invalid scalar, a corner no claim
touches. -/
def parseStringBody : List Char → List Char → Except String (String × List Char)
  | _, [] => Except.error "Unterminated string"
  | acc, c :: rest =>
    if c = '\x22' then Except.ok (String.mk acc.reverse, rest)
    else if c = '\x5c' then
      match rest with
      | [] => Except.error "Bad escape"
      | e :: r =>
        if e = '\x22' then parseStringBody ('\x22' :: acc) r
        else if e = '\x5c' then parseStringBody ('\x5c' :: acc) r
        else if e = '/' then parseStringBody ('/' :: acc) r
        else if e = 'b' then parseStringBody ('\x08' :: acc) r
        else if e = 'f' then parseStringBody ('\x0c' :: acc) r
        else if e = 'n' then parseStringBody ('\n' :: acc) r
        else if e = 'r' then parseStringBody ('\x0d' :: acc) r
        else if e = 't' then parseStringBody ('\t' :: acc) r
        else if e = 'u' then
          match r with
          | a :: b :: c2 :: d :: r2 =>
            match hexDigitVal a, hexDigitVal b, hexDigitVal c2, hexDigitVal d with
            | some ha, some hb, some hc, some hd =>
              parseStringBody (Char.ofNat (((ha * 16 + hb) * 16 + hc) * 16 + hd) :: acc) r2
            | _, _, _, _ => Except.error "Bad unicode escape"
          | _ => Except.error "Bad unicode escape"
        else Except.error "Bad escape"
    else if c.toNat < 32 then Except.error "Bad control character in string literal"
    else parseStringBody (c :: acc) rest

/-- Longest prefix of decimal digits, and the remainder. -/
def takeDigits : List Char → List Char × List Char
  | [] => ([], [])
  | c :: cs =>
    if c.isDigit then
      let (d, r) := takeDigits cs
      (c :: d, r)
    else ([], c :: cs)

/-- Optional fraction part of a JSON number. -/
def parseFrac : List Char → Except String (List Char × List Char)
  | '.' :: r =>
    match takeDigits r with
    | ([], _) => Except.error "Invalid number"
    | (ds, rest) => Except.ok ('.' :: ds, rest)
  | cs => Except.ok ([], cs)

/-- Optional exponent part of a JSON number. -/
def parseExp : List Char → Except String (List Char × List Char)
  | [] => Except.ok ([], [])
  | c :: r =>
    if c = 'e' ∨ c = 'E' then
      let (sgn, r1) :=
        match r with
        | s :: r2 => if s = '+' ∨ s = '-' then ([s], r2) else (([] : List Char), s :: r2)
        | [] => (([] : List Char), ([] : List Char))
      match takeDigits r1 with
      | ([], _) => Except.error "Invalid number"
      | (ds, rest) => Except.ok (c :: (sgn ++ ds), rest)
    else Except.ok ([], c :: r)

/-- A JSON number starting at the input; returns its lexeme. -/
def parseNumberBody (cs : List Char) : Except String (String × List Char) :=
  let (sign, cs1) :=
    match cs with
    | c :: r => if c = '-' then ((['-'] : List Char), r) else (([] : List Char), c :: r)
    | [] => (([] : List Char), ([] : List Char))
  match cs1 with
  | [] => Except.error "Invalid number"
  | c :: r =>
    if ¬ c.isDigit then Except.error "Invalid number"
    else
      let (intPart, rest0) :=
        if c = '0' then ((['0'] : List Char), r)
        else
          let (ds, r1) := takeDigits r
          (c :: ds, r1)
      match parseFrac rest0 with
      | Except.error e => Except.error e
      | Except.ok (fracPart, rest1) =>
        match parseExp rest1 with
        | Except.error e => Except.error e
        | Except.ok (expPart, rest2) =>
          Except.ok (String.mk (sign ++ intPart ++ fracPart ++ expPart), rest2)

mutual

/-- One JSON value, fuelled for termination (fuel bounds the nesting and
member count, and jsonParse supplies input length + 1, always enough). -/
def parseVal : Nat → List Char → Except String (Json × List Char)
  | 0, _ => Except.error "Depth limit"
  | Nat.succ fuel, cs =>
    match skipWs cs with
    | [] => Except.error "Unexpected end of JSON input"
    | 't' :: 'r' :: 'u' :: 'e' :: rest => Except.ok (Json.bool true, rest)
    | 'f' :: 'a' :: 'l' :: 's' :: 'e' :: rest => Except.ok (Json.bool false, rest)
    | 'n' :: 'u' :: 'l' :: 'l' :: rest => Except.ok (Json.null, rest)
    | c :: rest =>
      if c = '\x22' then
        match parseStringBody [] rest with
        | Except.error e => Except.error e
        | Except.ok (s, r) => Except.ok (Json.str s, r)
      else if c = '\x7b' then
        match skipWs rest with
        | [] => Except.error "Unexpected end of JSON input"
        | d :: r1 =>
          if d = '\x7d' then Except.ok (Json.obj [], r1)
          else parseMembers fuel (d :: r1) []
      else if c = '[' then
        match skipWs rest with
        | [] => Except.error "Unexpected end of JSON input"
        | ']' :: r1 => Except.ok (Json.arr [], r1)
        | d :: r1 => parseElems fuel (d :: r1) []
      else if c = '-' ∨ c.isDigit then
        match parseNumberBody (c :: rest) with
        | Except.error e => Except.error e
        | Except.ok (s, r) => Except.ok (Json.num s, r)
      else Except.error "Unexpected token"

/-- Members of a JSON object, after the opening brace (non-empty case). -/
def parseMembers : Nat → List Char → List (String × Json) →
    Except String (Json × List Char)
  | 0, _, _ => Except.error "Depth limit"
  | Nat.succ fuel, cs, acc =>
    match skipWs cs with
    | [] => Except.error "Unexpected end of JSON input"
    | c :: r =>
      if c = '\x22' then
        match parseStringBody [] r with
        | Except.error e => Except.error e
        | Except.ok (k, r1) =>
          match skipWs r1 with
          | ':' :: r2 =>
            match parseVal fuel r2 with
            | Except.error e => Except.error e
            | Except.ok (v, r3) =>
              match skipWs r3 with
              | [] => Except.error "Unexpected end of JSON input"
              | ',' :: r4 => parseMembers fuel r4 (acc ++ [(k, v)])
              | c2 :: r4 =>
                if c2 = '\x7d' then Except.ok (Json.obj (acc ++ [(k, v)]), r4)
                else Except.error "Expected comma or closing brace"
          | _ => Except.error "Expected colon"
      else Except.error "Expected string key"

/-- Elements of a JSON array, after the opening bracket (non-empty case). -/
def parseElems : Nat → List Char → List Json → Except String (Json × List Char)
  | 0, _, _ => Except.error "Depth limit"
  | Nat.succ fuel, cs, acc =>
    match parseVal fuel cs with
    | Except.error e => Except.error e
    | Except.ok (v, r) =>
      match skipWs r with
      | [] => Except.error "Unexpected end of JSON input"
      | ',' :: r1 => parseElems fuel r1 (acc ++ [v])
      | ']' :: r1 => Except.ok (Json.arr (acc ++ [v]), r1)
      | _ => Except.error "Expected comma or closing bracket"

end

/-- JSON.parse: the whole input must be one JSON value with only
whitespace around it; anything else is a thrown SyntaxError, modelled as
Except.error. -/
def jsonParse (s : String) : Except String Json :=
  match parseVal (s.data.length + 1) s.data with
  | Except.error e => Except.error e
  | Except.ok (j, rest) =>
    if (skipWs rest).isEmpty then Except.ok j
    else Except.error "Unexpected token after JSON value"

/-! ## JavaScript value semantics used by the handler -/

/-- Result of a JavaScript expression over parsed JSON data: either the
JavaScript value `undefined`, or a JSON value. -/
inductive JsVal where
  | undef : JsVal
  | val (j : Json) : JsVal

/-- Promote an optional JSON value to a JavaScript value. -/
def jsValOfOpt : Option Json → JsVal
  | none => JsVal.undef
  | some j => JsVal.val j

/-- Property lookup in an object field list: the LAST binding of the key
wins, matching how JSON.parse builds objects with duplicate keys. -/
def jsLookup (fs : List (String × Json)) (k : String) : Option Json :=
  (fs.reverse.find? (fun p => p.1 == k)).map (fun p => p.2)

/-- JavaScript property access v.k (no optional chaining): a TypeError on
undefined and null; a field lookup on objects; undefined on the remaining
primitives and arrays (none of the keys the handler reads is a special
string/array property). -/
def jsMember : JsVal → String → Except String JsVal
  | JsVal.undef, k =>
    Except.error ("TypeError: Cannot read properties of undefined (reading " ++ k ++ ")")
  | JsVal.val Json.null, k =>
    Except.error ("TypeError: Cannot read properties of null (reading " ++ k ++ ")")
  | JsVal.val (Json.obj fs), k => Except.ok (jsValOfOpt (jsLookup fs k))
  | JsVal.val _, _ => Except.ok JsVal.undef

/-- JavaScript indexing v[0]: TypeError on undefined/null, first element of
an array, first character of a string, the "0" property of an object,
undefined otherwise. -/
def jsIndexZero : JsVal → Except String JsVal
  | JsVal.undef => Except.error "TypeError: Cannot read properties of undefined (reading 0)"
  | JsVal.val Json.null => Except.error "TypeError: Cannot read properties of null (reading 0)"
  | JsVal.val (Json.arr []) => Except.ok JsVal.undef
  | JsVal.val (Json.arr (x :: _)) => Except.ok (JsVal.val x)
  | JsVal.val (Json.obj fs) => Except.ok (jsValOfOpt (jsLookup fs "0"))
  | JsVal.val (Json.str s) =>
    Except.ok (match s.data with
      | [] => JsVal.undef
      | c :: _ => JsVal.val (Json.str (String.mk [c])))
  | JsVal.val _ => Except.ok JsVal.undef

/-- Nullish test (undefined or null), the guard of optional chaining. -/
def jsNullish : JsVal → Bool
  | JsVal.undef => true
  | JsVal.val Json.null => true
  | _ => false

/-- A JSON number lexeme denotes zero iff every digit of its mantissa
(the part before any exponent marker) is 0. -/
def jsonNumIsZero (s : String) : Bool :=
  ((s.data.takeWhile (fun c => c ≠ 'e' ∧ c ≠ 'E')).filter Char.isDigit).all (fun c => c == '0')

/-- JavaScript truthiness of a value: undefined, null, false, numeric zero
and the empty string are falsy; everything else here is truthy. -/
def jsTruthy : JsVal → Bool
  | JsVal.undef => false
  | JsVal.val Json.null => false
  | JsVal.val (Json.bool b) => b
  | JsVal.val (Json.num s) => !(jsonNumIsZero s)
  | JsVal.val (Json.str s) => !(s == "")
  | JsVal.val (Json.arr _) => true
  | JsVal.val (Json.obj _) => true

/-- Strict equality v === t against a string: true exactly for the same
string value. -/
def jsStrictEqStr : JsVal → String → Bool
  | JsVal.val (Json.str s), t => s == t
  | _, _ => false

mutual

/-- String coercion used by template literals.  Arrays join their elements
with commas and objects print as below, close to Array.prototype.toString
and Object.prototype.toString (JS also blanks null/undefined inside
arrays; the handler only ever interpolates strings and undefined, where
this model is exact). -/
def jsonToStringJs : Json → String
  | Json.null => "null"
  | Json.bool true => "true"
  | Json.bool false => "false"
  | Json.num s => s
  | Json.str s => s
  | Json.arr xs => String.intercalate "," (jsonListToStrings xs)
  | Json.obj _ => "[object Object]"

/-- String coercions of a list of JSON values. -/
def jsonListToStrings : List Json → List String
  | [] => []
  | x :: xs => jsonToStringJs x :: jsonListToStrings xs

end

/-- String coercion of a JavaScript value in a template literal. -/
def jsToString : JsVal → String
  | JsVal.undef => "undefined"
  | JsVal.val j => jsonToStringJs j

/-! ## Signature computation and comparison

From route.ts:

  function calculateNotionSignature(rawBody, verificationToken) \x7b
    return
      sha256=$\x7bcreateHmac(sha256, verificationToken).update(rawBody).digest(hex)\x7d ;
  \x7d
  function isValidSignature(rawBody, headerSignature, verificationToken) \x7b
    if (!headerSignature || !verificationToken) return false;
    const calc = calculateNotionSignature(rawBody, verificationToken);
    const a = Buffer.from(calc);  const b = Buffer.from(headerSignature);
    if (a.length !== b.length) return false;
    return timingSafeEqual(a, b);
  \x7d
-/

/-- UTF-8 encoding of one character, as byte values (Buffer.from on a
string encodes UTF-8). -/
def utf8Bytes (c : Char) : List Nat :=
  let n := c.toNat
  if n < 0x80 then [n]
  else if n < 0x800 then [0xC0 + n / 64, 0x80 + n % 64]
  else if n < 0x10000 then [0xE0 + n / 4096, 0x80 + n / 64 % 64, 0x80 + n % 64]
  else [0xF0 + n / 262144, 0x80 + n / 4096 % 64, 0x80 + n / 64 % 64, 0x80 + n % 64]

/-- Bytes of Buffer.from(s): the UTF-8 encoding of the string. -/
def strBytes (s : String) : List Nat :=
  s.data.flatMap utf8Bytes

/-- Node crypto.timingSafeEqual on equal-length buffers: accumulate the OR
of the XOR of each byte pair and compare the accumulator with zero, never
exiting early (CRYPTO_memcmp). -/
def timingSafeEqual (a b : List Nat) : Bool :=
  decide ((List.zipWith (fun x y => x ^^^ y) a b).foldl (fun acc x => acc ||| x) 0 = 0)

/-- calculateNotionSignature: "sha256=" followed by the hex HMAC-SHA256
digest of the raw body keyed by the verification token. -/
def calculateNotionSignature (hm : String → String → String)
    (rawBody verificationToken : String) : String :=
  "sha256=" ++ hm verificationToken rawBody

/-- isValidSignature: false when the header is absent or empty or the token
is empty; otherwise compare the byte lengths of the expected signature and
the header, then compare their bytes in constant time. -/
def isValidSignature (hm : String → String → String) (rawBody : String)
    (headerSignature : Option String) (verificationToken : String) : Bool :=
  match headerSignature with
  | none => false
  | some h =>
    if h = "" ∨ verificationToken = "" then false
    else
      let a := strBytes (calculateNotionSignature hm rawBody verificationToken)
      let b := strBytes h
      if a.length ≠ b.length then false
      else timingSafeEqual a b

/-! ## Record derivation (NotionData) -/

/-- The record derived from the payload; each field is a JavaScript value
(undefined when the source field is absent).  In route.ts:
id ← body.pageId, title ← body.properties?.Name.title[0]?.plain_text,
slug ← body.properties?.Slug?.rich_text[0]?.plain_text,
content ← body.properties?.Content?.rich_text[0]?.plain_text. -/
structure NotionData where
  id : JsVal
  title : JsVal
  slug : JsVal
  content : JsVal

/-- body.properties?.Name.title[0]?.plain_text — note that only properties
and the [0] result are guarded by optional chaining; Name and title are
accessed unconditionally. -/
def deriveTitle (body : Json) : Except String JsVal := do
  let props ← jsMember (JsVal.val body) "properties"
  if jsNullish props then pure JsVal.undef
  else do
    let nm ← jsMember props "Name"
    let t ← jsMember nm "title"
    let t0 ← jsIndexZero t
    if jsNullish t0 then pure JsVal.undef else jsMember t0 "plain_text"

/-- body.properties?.Slug?.rich_text[0]?.plain_text — Slug is guarded, its
rich_text is not. -/
def deriveSlug (body : Json) : Except String JsVal := do
  let props ← jsMember (JsVal.val body) "properties"
  if jsNullish props then pure JsVal.undef
  else do
    let sl ← jsMember props "Slug"
    if jsNullish sl then pure JsVal.undef
    else do
      let r ← jsMember sl "rich_text"
      let r0 ← jsIndexZero r
      if jsNullish r0 then pure JsVal.undef else jsMember r0 "plain_text"

/-- body.properties?.Content?.rich_text[0]?.plain_text. -/
def deriveContent (body : Json) : Except String JsVal := do
  let props ← jsMember (JsVal.val body) "properties"
  if jsNullish props then pure JsVal.undef
  else do
    let ct ← jsMember props "Content"
    if jsNullish ct then pure JsVal.undef
    else do
      let r ← jsMember ct "rich_text"
      let r0 ← jsIndexZero r
      if jsNullish r0 then pure JsVal.undef else jsMember r0 "plain_text"

/-- The notionData object literal, fields evaluated in source order; a
TypeError in any field expression aborts the handler. -/
def deriveNotionData (body : Json) : Except String NotionData := do
  let idv ← jsMember (JsVal.val body) "pageId"
  let t ← deriveTitle body
  let s ← deriveSlug body
  let c ← deriveContent body
  pure ⟨idv, t, s, c⟩

/-! ## Remote upsert (updateOrCreateWebflowItem) -/

/-- An outbound HTTP request.  The Authorization and Content-Type headers
are the same constants on every call and are claim-irrelevant, so they are
not modelled.  The body is the structured form of what the source passes
through JSON.stringify. -/
structure HttpRequest where
  method : String
  url : String
  body : Option Json

/-- JSON.stringify drops object entries whose value is undefined; null is
kept. -/
def definedFields (xs : List (String × JsVal)) : List (String × Json) :=
  xs.filterMap (fun p =>
    match p.2 with
    | JsVal.undef => none
    | JsVal.val j => some (p.1, j))

/-- fieldData: \x7b name: title, slug, content \x7d. -/
def fieldDataJson (d : NotionData) : Json :=
  Json.obj (definedFields [("name", d.title), ("slug", d.slug), ("content", d.content)])

/-- The PATCH/create payload
\x7b isArchived: false, isDraft: false, fieldData: \x7b name, slug, content \x7d \x7d
(the source spells out this literal twice, identically). -/
def webflowItemBody (d : NotionData) : Json :=
  Json.obj [("isArchived", Json.bool false), ("isDraft", Json.bool false),
    ("fieldData", fieldDataJson d)]

/-- Collection items endpoint. -/
def webflowBase (collectionId : String) : String :=
  "https://api.webflow.com/v2/collections/" ++ collectionId ++ "/items"

/-- The slug lookup GET. -/
def wfGetReq (collectionId : String) (d : NotionData) : HttpRequest :=
  ⟨"GET", webflowBase collectionId ++ "?slug=" ++ jsToString d.slug, none⟩

/-- The PATCH of an existing item. -/
def wfPatchReq (collectionId : String) (d : NotionData) (itemId : JsVal) : HttpRequest :=
  ⟨"PATCH", webflowBase collectionId ++ "/" ++ jsToString itemId, some (webflowItemBody d)⟩

/-- The POST creating a new item. -/
def wfPostReq (collectionId : String) (d : NotionData) : HttpRequest :=
  ⟨"POST", webflowBase collectionId, some (webflowItemBody d)⟩

/-- Field lookup on a decoded JSON value (undefined on non-objects). -/
def jsMemberJson (j : Json) (k : String) : Option Json :=
  match j with
  | Json.obj fs => jsLookup fs k
  | _ => none

/-- The branch condition of the upsert:
existing && Array.isArray(existing.items) && existing.items.length > 0,
returning existing.items[0] when it holds.  Short-circuiting makes the
.items access safe: it only happens when existing is truthy (so non-null). -/
def webflowLookupHead (existing : Json) : Option Json :=
  match (if jsTruthy (JsVal.val existing) then jsMemberJson existing "items" else none) with
  | some (Json.arr (x :: _)) => some x
  | _ => none

/-- updateOrCreateWebflowItem: GET the collection filtered by slug, decode
the body as JSON defaulting to the empty object; when an item exists,
PATCH items/\x7bitems[0]._id\x7d, else POST a new item; either response is
again decoded as JSON with the empty-object default.  The returned trace
lists the issued requests in order.  Reading _id from a null first item is
a TypeError, an unhandled fault. -/
def updateOrCreateWebflowItem (net : HttpRequest → Nat × Option Json)
    (collectionId : String) (d : NotionData) :
    Except String (Json × List HttpRequest) :=
  let getReq := wfGetReq collectionId d
  let existing : Json := ((net getReq).2).getD (Json.obj [])
  match webflowLookupHead existing with
  | some item => do
    let idv ← jsMember (JsVal.val item) "_id"
    let patchReq := wfPatchReq collectionId d idv
    pure (((net patchReq).2).getD (Json.obj []), [getReq, patchReq])
  | none =>
    let postReq := wfPostReq collectionId d
    pure (((net postReq).2).getD (Json.obj []), [getReq, postReq])

/-! ## The POST handler -/

/-- Body of an inbound HTTP response: either a plain string or the
structured form of a JSON.stringify result. -/
inductive RespBody where
  | text (s : String) : RespBody
  | json (j : Json) : RespBody

/-- An inbound HTTP response (new Response defaults to status 200). -/
structure WebResponse where
  status : Nat
  body : RespBody

/-- Falsiness of req.headers.get("x-notion-signature"): null or empty. -/
def hdrFalsy : Option String → Bool
  | none => true
  | some s => s == ""

/-- The value of body?.verification_token. -/
def verificationTokenOf (body : Json) : JsVal :=
  match body with
  | Json.null => JsVal.undef
  | Json.obj fs => jsValOfOpt (jsLookup fs "verification_token")
  | _ => JsVal.undef

/-- The handshake guard: !headerSignature && body?.verification_token. -/
def handshakePath (headerSignature : Option String) (body : Json) : Bool :=
  hdrFalsy headerSignature && jsTruthy (verificationTokenOf body)

/-- The POST handler.  In source order: read the raw body, JSON.parse it
(a parse failure is an unhandled fault), read the signature header, take
the handshake path when there is no header and the parsed body has a
truthy verification_token, otherwise require a valid signature (else 401),
derive the record and run the upsert, and answer 200 with
\x7b success: true, webflowResponse \x7d.  The secret argument models the
NOTION_WEBHOOK_VERIFICATION_TOKEN environment constant, the collectionId
argument the WEBFLOW_COLLECTION_ID one. -/
def POST (hm : String → String → String) (net : HttpRequest → Nat × Option Json)
    (collectionId secret : String) (headerSignature : Option String)
    (rawBody : String) : Except String (WebResponse × List HttpRequest) :=
  match jsonParse rawBody with
  | Except.error e => Except.error e
  | Except.ok body =>
    if handshakePath headerSignature body then
      if secret ≠ "" ∧ jsStrictEqStr (verificationTokenOf body) secret = false then
        Except.ok (⟨401, RespBody.text "Verification token mismatch"⟩, [])
      else
        Except.ok (⟨200, RespBody.json (Json.obj [("success", Json.bool true)])⟩, [])
    else if isValidSignature hm rawBody headerSignature secret = false then
      Except.ok (⟨401, RespBody.text "Invalid signature"⟩, [])
    else
      match deriveNotionData body with
      | Except.error e => Except.error e
      | Except.ok d =>
        match updateOrCreateWebflowItem net collectionId d with
        | Except.error e => Except.error e
        | Except.ok (wf, reqs) =>
          Except.ok
            (⟨200, RespBody.json
                (Json.obj [("success", Json.bool true), ("webflowResponse", wf)])⟩, reqs)

/-! ## Helper lemmas -/

theorem lorEqZeroIff (a b : Nat) : a ||| b = 0 ↔ a = 0 ∧ b = 0 := by
  constructor
  · intro h
    constructor
    · apply Nat.eq_of_testBit_eq
      intro i
      have hb : (a ||| b).testBit i = Nat.testBit 0 i := by rw [h]
      simp only [Nat.testBit_or, Nat.zero_testBit, Bool.or_eq_false_iff] at hb
      simp [hb.1]
    · apply Nat.eq_of_testBit_eq
      intro i
      have hb : (a ||| b).testBit i = Nat.testBit 0 i := by rw [h]
      simp only [Nat.testBit_or, Nat.zero_testBit, Bool.or_eq_false_iff] at hb
      simp [hb.2]
  · rintro ⟨rfl, rfl⟩
    rfl

theorem foldlLorEqZero (l : List Nat) :
    ∀ acc, (l.foldl (fun a x => a ||| x) acc = 0) ↔ (acc = 0 ∧ ∀ x ∈ l, x = 0) := by
  induction l with
  | nil => intro acc; simp
  | cons y ys ih =>
    intro acc
    simp only [List.foldl_cons, ih, lorEqZeroIff, List.mem_cons]
    constructor
    · rintro ⟨⟨h1, h2⟩, h3⟩
      exact ⟨h1, fun x hx => hx.elim (fun hxy => hxy ▸ h2) (h3 x)⟩
    · rintro ⟨h1, h2⟩
      exact ⟨⟨h1, h2 y (Or.inl rfl)⟩, fun x hx => h2 x (Or.inr hx)⟩

theorem zipWithXorZeroIff :
    ∀ (a b : List Nat), a.length = b.length →
      ((∀ z ∈ List.zipWith (fun x y => x ^^^ y) a b, z = 0) ↔ a = b) := by
  intro a
  induction a with
  | nil =>
    intro b h
    cases b with
    | nil => simp
    | cons y ys => simp at h
  | cons x xs ih =>
    intro b h
    cases b with
    | nil => simp at h
    | cons y ys =>
      simp only [List.length_cons, Nat.succ.injEq] at h
      simp only [List.zipWith_cons_cons, List.mem_cons, List.cons.injEq]
      constructor
      · intro hz
        have hx : x = y := Nat.xor_eq_zero.mp (hz _ (Or.inl rfl))
        exact ⟨hx, (ih ys h).mp (fun z hzz => hz z (Or.inr hzz))⟩
      · rintro ⟨rfl, rfl⟩
        intro z hz
        rcases hz with hz | hz
        · rw [hz]; exact Nat.xor_self x
        · exact (ih xs h).mpr rfl z hz

/-- The constant-time comparison decides exact byte equality on
equal-length inputs. -/
theorem timingSafeEqualEqIff (a b : List Nat) (h : a.length = b.length) :
    timingSafeEqual a b = true ↔ a = b := by
  simp only [timingSafeEqual, decide_eq_true_eq, foldlLorEqZero, true_and]
  exact zipWithXorZeroIff a b h

theorem strBytesAppend (s t : String) : strBytes (s ++ t) = strBytes s ++ strBytes t := by
  simp [strBytes, String.data_append]

/-- An expected signature always has bytes (it starts with "sha256="). -/
theorem strBytesCalcNeNil (hm : String → String → String) (raw tok : String) :
    strBytes (calculateNotionSignature hm raw tok) ≠ [] := by
  intro h
  rw [calculateNotionSignature, strBytesAppend] at h
  have : strBytes "sha256=" = [] := List.append_eq_nil.mp h |>.1
  simp [strBytes, utf8Bytes] at this

/-- An expected signature is never the empty string. -/
theorem calcNeEmpty (hm : String → String → String) (raw tok : String) :
    calculateNotionSignature hm raw tok ≠ "" := by
  intro h
  exact strBytesCalcNeNil hm raw tok (by rw [h]; rfl)

/-- Verifying a body against the signature computed over it with the same
non-empty secret succeeds. -/
theorem signVerifyRoundTrip (hm : String → String → String) (bdy secret : String)
    (hs : secret ≠ "") :
    isValidSignature hm bdy (some (calculateNotionSignature hm bdy secret)) secret = true := by
  have hts : timingSafeEqual (strBytes (calculateNotionSignature hm bdy secret))
      (strBytes (calculateNotionSignature hm bdy secret)) = true :=
    (timingSafeEqualEqIff _ _ rfl).mpr rfl
  rw [isValidSignature]
  rw [if_neg (fun h => h.elim (calcNeEmpty hm bdy secret) hs)]
  simp [hts]

/-- Any header whose bytes differ from the expected signature bytes is
rejected (in particular any single-byte mutation of the signature). -/
theorem mutatedSignatureRejected (hm : String → String → String) (bdy secret h : String)
    (hbytes : strBytes h ≠ strBytes (calculateNotionSignature hm bdy secret)) :
    isValidSignature hm bdy (some h) secret = false := by
  rw [isValidSignature]
  by_cases hemp : h = "" ∨ secret = ""
  · rw [if_pos hemp]
  · rw [if_neg hemp]
    simp only [ne_eq, ite_not]
    by_cases hlen : (strBytes (calculateNotionSignature hm bdy secret)).length = (strBytes h).length
    · rw [if_pos hlen]
      rcases hb : timingSafeEqual (strBytes (calculateNotionSignature hm bdy secret)) (strBytes h) with _ | _
      · rfl
      · exact absurd ((timingSafeEqualEqIff _ _ hlen).mp hb).symm hbytes
    · rw [if_neg hlen]

/-- A signature check can only pass when the header bytes equal the
expected signature bytes. -/
theorem isValidFalseOfDiff (hm : String → String → String) (raw tok : String)
    (hdr : Option String)
    (hcond : hdr = none ∨ tok = "" ∨
      (∀ s, hdr = some s → strBytes s ≠ strBytes (calculateNotionSignature hm raw tok))) :
    isValidSignature hm raw hdr tok = false := by
  cases hdr with
  | none => rfl
  | some s =>
    rcases hcond with h | h | h
    · exact absurd h (by simp)
    · rw [isValidSignature, if_pos (Or.inr h)]
    · exact mutatedSignatureRejected hm raw tok s (h s rfl)

/-! ## Concrete fixtures used by counterexamples and witnesses -/

/-- The raw body of spec test 6 (claim C5). -/
def RAW5 : String :=
  "\x7b\"pageId\":\"p1\",\"properties\":\x7b\"Name\":\x7b\"title\":[\x7b\"plain_text\":\"Hello\"\x7d]\x7d,\"Slug\":\x7b\"rich_text\":[\x7b\"plain_text\":\"hello\"\x7d]\x7d\x7d\x7d"

/-- JSON.parse of RAW5. -/
def BODY5 : Json :=
  Json.obj [("pageId", Json.str "p1"),
    ("properties", Json.obj [
      ("Name", Json.obj [("title", Json.arr [Json.obj [("plain_text", Json.str "Hello")]])]),
      ("Slug", Json.obj [("rich_text", Json.arr [Json.obj [("plain_text", Json.str "hello")]])])])]

/-- The record the handler derives from BODY5. -/
def REC5 : NotionData :=
  ⟨JsVal.val (Json.str "p1"), JsVal.val (Json.str "Hello"),
   JsVal.val (Json.str "hello"), JsVal.undef⟩

/-- A concrete stand-in digest function. -/
def hm0 : String → String → String := fun _ _ => "d"

/-- A digest function returning the empty string, making "sha256=" the
expected signature for every body. -/
def hm8 : String → String → String := fun _ _ => ""

/-- A remote that never decodes to JSON. -/
def net0 : HttpRequest → Nat × Option Json := fun _ => (200, none)

/-- A remote whose slug lookup answers with a null first item. -/
def net7 : HttpRequest → Nat × Option Json :=
  fun _ => (200, some (Json.obj [("items", Json.arr [Json.null])]))

/-- A remote with one existing item i1 on lookups (status 500) and a
decodable error body on writes (status 404). -/
def net65 : HttpRequest → Nat × Option Json := fun q =>
  if q.method = "GET" then
    (500, some (Json.obj [("items", Json.arr [Json.obj [("_id", Json.str "i1")]])]))
  else (404, some (Json.obj [("ok", Json.bool false)]))

/-- A handshake body whose verification_token is the empty string. -/
def RAW3 : String := "\x7b\"verification_token\":\"\"\x7d"

/-- A handshake body with verification_token "t". -/
def RAWT : String := "\x7b\"verification_token\":\"t\"\x7d"

/-- A signed body whose properties object is present but has no Name. -/
def RAW8 : String := "\x7b\"pageId\":\"p\",\"properties\":\x7b\x7d\x7d"

/-! ## Claims -/

/-- Claim C9: a request whose raw body is not valid JSON makes the handler
fault before anything else: JSON.parse is not caught, runs before the
handshake check and before the signature check, so no 200 and no 401 is
produced for any header value. -/
theorem claim_C9 (hm : String → String → String) (net : HttpRequest → Nat × Option Json)
    (cid tok : String) (hdr : Option String) (raw e : String)
    (h : jsonParse raw = Except.error e) :
    POST hm net cid tok hdr raw = Except.error e := by
  simp only [POST, h]

/-- Witness for claim C9 at the non-JSON body "nope". -/
theorem claim_C9_witness :
    POST hm0 net0 "c" "s" none "nope" = Except.error "Unexpected token" :=
  claim_C9 hm0 net0 "c" "s" none "nope" "Unexpected token" rfl

/-- The two 401 responses of the handler differ. -/
theorem invalidNeMismatch :
    (Except.ok (⟨401, RespBody.text "Invalid signature"⟩, ([] : List HttpRequest))
      : Except String (WebResponse × List HttpRequest))
    ≠ Except.ok (⟨401, RespBody.text "Verification token mismatch"⟩, []) := by
  intro h
  simp only [Except.ok.injEq, Prod.mk.injEq, WebResponse.mk.injEq, RespBody.text.injEq] at h
  exact absurd h.1.2 (by decide)

/-- Claim C2: an event-delivery request (one with a parsed body that does
not take the handshake path) is answered 401 "Invalid signature" whenever
the signature header is missing, the secret is empty, or the header bytes
differ from the expected signature bytes (covering both a length mismatch
and any byte mismatch); no outbound request is issued. -/
theorem claim_C2 (hm : String → String → String) (net : HttpRequest → Nat × Option Json)
    (cid tok : String) (hdr : Option String) (raw : String) (b : Json)
    (hp : jsonParse raw = Except.ok b)
    (hhs : handshakePath hdr b = false)
    (hcond : hdr = none ∨ tok = "" ∨
      (∀ s, hdr = some s → strBytes s ≠ strBytes (calculateNotionSignature hm raw tok))) :
    POST hm net cid tok hdr raw = Except.ok (⟨401, RespBody.text "Invalid signature"⟩, []) := by
  have hv : isValidSignature hm raw hdr tok = false := isValidFalseOfDiff hm raw tok hdr hcond
  simp [POST, hp, hhs, hv]

/-- Witness for claim C2: empty body object, no header, secret "s". -/
theorem claim_C2_witness :
    POST hm0 net0 "c" "s" none "\x7b\x7d"
      = Except.ok (⟨401, RespBody.text "Invalid signature"⟩, []) :=
  claim_C2 hm0 net0 "c" "s" none "\x7b\x7d" (Json.obj []) rfl rfl (Or.inl rfl)

/-- Claim C10: a request without signature header whose body has a
verification_token equal to the empty string does NOT take the handshake
path (the guard tests truthiness, not presence) and ends in
401 "Invalid signature", not "Verification token mismatch". -/
theorem claim_C10 (hm : String → String → String) (net : HttpRequest → Nat × Option Json)
    (cid tok raw : String) (fs : List (String × Json))
    (hp : jsonParse raw = Except.ok (Json.obj fs))
    (ht : jsLookup fs "verification_token" = some (Json.str "")) :
    POST hm net cid tok none raw = Except.ok (⟨401, RespBody.text "Invalid signature"⟩, [])
    ∧ POST hm net cid tok none raw
        ≠ Except.ok (⟨401, RespBody.text "Verification token mismatch"⟩, []) := by
  have hv : verificationTokenOf (Json.obj fs) = JsVal.val (Json.str "") := by
    simp [verificationTokenOf, ht, jsValOfOpt]
  have hhs : handshakePath none (Json.obj fs) = false := by
    simp [handshakePath, hv, jsTruthy, hdrFalsy]
  have h1 : POST hm net cid tok none raw
      = Except.ok (⟨401, RespBody.text "Invalid signature"⟩, []) := by
    have hvf : isValidSignature hm raw none tok = false := rfl
    simp [POST, hp, hhs, hvf]
  exact ⟨h1, fun h => invalidNeMismatch (h1.symm.trans h)⟩

/-- Witness for claim C10 at the body with an empty verification_token. -/
theorem claim_C10_witness :
    POST hm0 net0 "c" "s" none RAW3
      = Except.ok (⟨401, RespBody.text "Invalid signature"⟩, []) :=
  (claim_C10 hm0 net0 "c" "s" RAW3 [("verification_token", Json.str "")] rfl rfl).1

/-- Counterexample to claim C3 as stated: the body contains a
verification_token field (the empty string), there is no signature header
and a secret "s" is configured, yet the handler does not answer
"Verification token mismatch" — the falsy token skips the handshake path
and signature validation answers 401 "Invalid signature". -/
theorem claim_C3_cex :
    POST hm0 net0 "c" "s" none RAW3
      = Except.ok (⟨401, RespBody.text "Invalid signature"⟩, [])
    ∧ POST hm0 net0 "c" "s" none RAW3
        ≠ Except.ok (⟨401, RespBody.text "Verification token mismatch"⟩, []) :=
  ⟨rfl, fun h => invalidNeMismatch ((rfl : POST hm0 net0 "c" "s" none RAW3
      = Except.ok (⟨401, RespBody.text "Invalid signature"⟩, [])).symm.trans h)⟩

/-- Claim C3 (amended): for a request with no signature header whose
parsed body has a TRUTHY verification_token, the handler takes the
handshake path: with a configured secret and a token not strictly equal to
it the answer is 401 "Verification token mismatch", otherwise
200 with body \x7b success: true \x7d; either way no outbound request. -/
theorem claim_C3 (hm : String → String → String) (net : HttpRequest → Nat × Option Json)
    (cid tok raw : String) (b : Json)
    (hp : jsonParse raw = Except.ok b)
    (ht : jsTruthy (verificationTokenOf b) = true) :
    (tok ≠ "" → jsStrictEqStr (verificationTokenOf b) tok = false →
      POST hm net cid tok none raw
        = Except.ok (⟨401, RespBody.text "Verification token mismatch"⟩, []))
    ∧ ((tok = "" ∨ jsStrictEqStr (verificationTokenOf b) tok = true) →
      POST hm net cid tok none raw
        = Except.ok (⟨200, RespBody.json (Json.obj [("success", Json.bool true)])⟩, [])) := by
  have hhs : handshakePath none b = true := by
    simp [handshakePath, hdrFalsy, ht]
  constructor
  · intro h1 h2
    simp [POST, hp, hhs, h1, h2]
  · intro h
    have hnot : ¬(tok ≠ "" ∧ jsStrictEqStr (verificationTokenOf b) tok = false) := by
      rcases h with h | h
      · exact fun hc => hc.1 h
      · exact fun hc => by rw [h] at hc; exact Bool.noConfusion hc.2
    simp [POST, hp, hhs, hnot]

/-- Witness for the amended claim C3: token "t" against secret "s" is a
mismatch. -/
theorem claim_C3_witness :
    POST hm0 net0 "c" "s" none RAWT
      = Except.ok (⟨401, RespBody.text "Verification token mismatch"⟩, []) :=
  (claim_C3 hm0 net0 "c" "s" RAWT (Json.obj [("verification_token", Json.str "t")])
    rfl rfl).1 (by decide) rfl

/-- Claim C4: (1) the expected signature is "sha256=" plus the hex HMAC of
the raw body under the secret; (2) for a configured secret, validation
succeeds exactly when the header bytes equal the expected signature bytes
(the equal-length guard plus the constant-time comparison decide full byte
equality); (3) the constant-time primitive decides equality without
short-circuiting (it is the OR-of-XORs fold, see timingSafeEqual); (4) the
signature is computed over the exact raw bytes, not a re-serialization:
two raw bodies that parse to the same JSON value can validate differently
under the same header. -/
theorem claim_C4 :
    (∀ (hm : String → String → String) (raw tok : String),
      calculateNotionSignature hm raw tok = "sha256=" ++ hm tok raw)
    ∧ (∀ (hm : String → String → String) (raw h tok : String), tok ≠ "" →
      (isValidSignature hm raw (some h) tok = true ↔
        strBytes h = strBytes (calculateNotionSignature hm raw tok)))
    ∧ (∀ a b : List Nat, a.length = b.length → (timingSafeEqual a b = true ↔ a = b))
    ∧ (∃ (hm : String → String → String) (r1 r2 : String) (j : Json) (h tok : String),
      jsonParse r1 = Except.ok j ∧ jsonParse r2 = Except.ok j ∧ r1 ≠ r2 ∧
      isValidSignature hm r1 (some h) tok = true ∧
      isValidSignature hm r2 (some h) tok = false) := by
  refine ⟨fun _ _ _ => rfl, ?_, timingSafeEqualEqIff, ?_⟩
  · intro hm raw h tok htok
    by_cases hh : h = ""
    · subst hh
      rw [isValidSignature, if_pos (Or.inl rfl)]
      constructor
      · intro hfalse; exact absurd hfalse (by simp)
      · intro hbytes
        exact absurd hbytes.symm
          (by simpa [strBytes] using strBytesCalcNeNil hm raw tok)
    · rw [isValidSignature, if_neg (fun hor => hor.elim hh htok)]
      by_cases hlen : (strBytes (calculateNotionSignature hm raw tok)).length
          = (strBytes h).length
      · simp only [ne_eq, hlen, not_true_eq_false, if_false, ite_false]
        rw [timingSafeEqualEqIff _ _ hlen]
        exact eq_comm
      · rw [if_pos (by simpa using hlen)]
        constructor
        · intro hfalse; exact absurd hfalse (by simp)
        · intro hbytes; exact absurd (congrArg List.length hbytes.symm) hlen
  · refine ⟨fun _ b => b, "[]", "[] ", Json.arr [], "sha256=[]", "s",
      rfl, rfl, by decide, by decide, by decide⟩

/-- Witness for claim C4 applying its comparison characterization at a
concrete pair of equal-length byte lists. -/
theorem claim_C4_witness : timingSafeEqual [1, 2] [1, 2] = true ↔ [1, 2] = [1, 2] :=
  claim_C4.2.2.1 [1, 2] [1, 2] rfl

/-- A payload with pageId and all three properties populated with one
rich-text run each, used to state the general field-extraction rule. -/
def sampleNotionBody (pid t s c : String) : Json :=
  Json.obj [("pageId", Json.str pid),
    ("properties", Json.obj [
      ("Name", Json.obj [("title", Json.arr [Json.obj [("plain_text", Json.str t)]])]),
      ("Slug", Json.obj [("rich_text", Json.arr [Json.obj [("plain_text", Json.str s)]])]),
      ("Content", Json.obj [("rich_text", Json.arr [Json.obj [("plain_text", Json.str c)]])])])]

/-- Claim C5: for the raw body RAW5 with secret "shh" and the correct
signature header, the derived record is
\x7b id: "p1", title: "Hello", slug: "hello", content: undefined \x7d and
the fieldData of the upsert payload is
\x7b name: "Hello", slug: "hello" \x7d with the content entry dropped
(undefined); in general, id comes from pageId and title/slug/content come
from the first rich-text run of the Name/Slug/Content properties.  The
final conjunct runs the whole handler: with the correct header the
response is the upsert of exactly REC5. -/
theorem claim_C5 :
    jsonParse RAW5 = Except.ok BODY5
    ∧ deriveNotionData BODY5 = Except.ok REC5
    ∧ REC5 = ⟨JsVal.val (Json.str "p1"), JsVal.val (Json.str "Hello"),
        JsVal.val (Json.str "hello"), JsVal.undef⟩
    ∧ fieldDataJson REC5 = Json.obj [("name", Json.str "Hello"), ("slug", Json.str "hello")]
    ∧ (∀ pid t s c, deriveNotionData (sampleNotionBody pid t s c) =
        Except.ok ⟨JsVal.val (Json.str pid), JsVal.val (Json.str t),
          JsVal.val (Json.str s), JsVal.val (Json.str c)⟩)
    ∧ (∀ (hm : String → String → String) (net : HttpRequest → Nat × Option Json)
        (cid : String),
        POST hm net cid "shh" (some (calculateNotionSignature hm RAW5 "shh")) RAW5 =
          match updateOrCreateWebflowItem net cid REC5 with
          | Except.error e => Except.error e
          | Except.ok (wf, reqs) =>
            Except.ok (⟨200, RespBody.json
              (Json.obj [("success", Json.bool true), ("webflowResponse", wf)])⟩, reqs)) := by
  refine ⟨rfl, rfl, rfl, rfl, fun pid t s c => rfl, ?_⟩
  intro hm net cid
  have hval : isValidSignature hm RAW5
      (some (calculateNotionSignature hm RAW5 "shh")) "shh" = true :=
    signVerifyRoundTrip hm RAW5 "shh" (by decide)
  have htok : jsTruthy (verificationTokenOf BODY5) = false := rfl
  have hhs : handshakePath (some (calculateNotionSignature hm RAW5 "shh")) BODY5 = false := by
    simp [handshakePath, htok]
  rw [POST]
  rw [show jsonParse RAW5 = Except.ok BODY5 from rfl]
  simp only [hhs, hval, Bool.false_eq_true, if_false, ite_false,
    show deriveNotionData BODY5 = Except.ok REC5 from rfl]
  rw [if_neg (fun h => Bool.noConfusion h)]

/-- A remote with one existing item i1 on lookups and empty-object bodies
on writes. -/
def net6 : HttpRequest → Nat × Option Json := fun q =>
  if q.method = "GET" then
    (200, some (Json.obj [("items", Json.arr [Json.obj [("_id", Json.str "i1")]])]))
  else (200, some (Json.obj []))

/-- Claim C6: when the decoded slug-lookup response has a non-empty items
array, the upsert issues exactly the GET followed by one PATCH to the
identifier of the first item with body
\x7b isArchived: false, isDraft: false, fieldData \x7d and no create POST;
when the items list is empty or absent it issues exactly the GET followed
by one create POST with the same body shape and no PATCH.  The middle
conjuncts link the branch condition to the items list; the last conjuncts
pin down the methods, URLs and bodies of the two writes. -/
theorem claim_C6 :
    (∀ (net : HttpRequest → Nat × Option Json) (cid : String) (d : NotionData)
       (fs : List (String × Json)) (idj : Json),
      webflowLookupHead (((net (wfGetReq cid d)).2).getD (Json.obj [])) = some (Json.obj fs) →
      jsLookup fs "_id" = some idj →
      updateOrCreateWebflowItem net cid d =
        Except.ok (((net (wfPatchReq cid d (JsVal.val idj))).2).getD (Json.obj []),
          [wfGetReq cid d, wfPatchReq cid d (JsVal.val idj)]))
    ∧ (∀ (net : HttpRequest → Nat × Option Json) (cid : String) (d : NotionData),
      webflowLookupHead (((net (wfGetReq cid d)).2).getD (Json.obj [])) = none →
      updateOrCreateWebflowItem net cid d =
        Except.ok (((net (wfPostReq cid d)).2).getD (Json.obj []),
          [wfGetReq cid d, wfPostReq cid d]))
    ∧ (∀ (j x : Json) (xs : List Json), jsTruthy (JsVal.val j) = true →
        jsMemberJson j "items" = some (Json.arr (x :: xs)) →
        webflowLookupHead j = some x)
    ∧ (∀ j : Json, jsMemberJson j "items" = some (Json.arr []) →
        webflowLookupHead j = none)
    ∧ (∀ cid d idv, (wfPatchReq cid d idv).method = "PATCH"
        ∧ (wfPatchReq cid d idv).url = webflowBase cid ++ "/" ++ jsToString idv
        ∧ (wfPatchReq cid d idv).body = some (webflowItemBody d))
    ∧ (∀ cid d, (wfPostReq cid d).method = "POST" ∧ (wfPostReq cid d).url = webflowBase cid
        ∧ (wfPostReq cid d).body = some (webflowItemBody d))
    ∧ (∀ d, webflowItemBody d = Json.obj [("isArchived", Json.bool false),
        ("isDraft", Json.bool false), ("fieldData", fieldDataJson d)]) := by
  refine ⟨?_, ?_, ?_, ?_, fun cid d idv => ⟨rfl, rfl, rfl⟩,
    fun cid d => ⟨rfl, rfl, rfl⟩, fun d => rfl⟩
  · intro net cid d fs idj h1 h2
    simp [updateOrCreateWebflowItem, h1, jsMember, h2, jsValOfOpt]
  · intro net cid d h
    simp [updateOrCreateWebflowItem, h, pure, Except.pure]
  · intro j x xs h1 h2
    simp [webflowLookupHead, h1, h2]
  · intro j h
    cases htr : jsTruthy (JsVal.val j) <;> simp [webflowLookupHead, htr, h]

/-- Witness for claim C6: a remote with item i1 gets exactly one PATCH, a
remote with no decodable lookup body gets exactly one create POST. -/
theorem claim_C6_witness :
    updateOrCreateWebflowItem net6 "c" REC5
      = Except.ok (Json.obj [], [wfGetReq "c" REC5, wfPatchReq "c" REC5 (JsVal.val (Json.str "i1"))])
    ∧ updateOrCreateWebflowItem net0 "c" REC5
      = Except.ok (Json.obj [], [wfGetReq "c" REC5, wfPostReq "c" REC5]) :=
  ⟨claim_C6.1 net6 "c" REC5 [("_id", Json.str "i1")] (Json.str "i1") rfl rfl,
   claim_C6.2.1 net0 "c" REC5 rfl⟩

@[simp] theorem okBind {α β : Type} (a : α) (f : α → Except String β) :
    (Except.ok a >>= f) = f a := rfl

@[simp] theorem errBind {α β : Type} (e : String) (f : α → Except String β) :
    ((Except.error e : Except String α) >>= f) = Except.error e := rfl

/-- The upsert only looks at the decoded bodies of the remote responses,
never at their statuses. -/
theorem upsertSndAgree (net net2 : HttpRequest → Nat × Option Json)
    (h : ∀ q, (net q).2 = (net2 q).2) (cid : String) (d : NotionData) :
    updateOrCreateWebflowItem net cid d = updateOrCreateWebflowItem net2 cid d := by
  simp only [updateOrCreateWebflowItem, h]

/-- Counterexample to claim C7 as stated: a successfully verified
event-delivery request (the signature check passes) for which the handler
does NOT return a 200 response: the remote lookup decodes to
\x7b items: [null] \x7d, reading _id of the null first item is a TypeError
and the handler faults. -/
theorem claim_C7_cex :
    isValidSignature hm8 RAW5 (some "sha256=") "s" = true
    ∧ POST hm8 net7 "c" "s" (some "sha256=") RAW5
        = Except.error "TypeError: Cannot read properties of null (reading _id)" :=
  ⟨by decide, rfl⟩

/-- Claim C7 (amended): for every successfully verified event-delivery
request whose record derivation and upsert complete without a fault, the
handler answers 200 with \x7b success: true, webflowResponse \x7d
regardless of the remote HTTP statuses: (1) the response for a completed
upsert; (2) the whole handler is invariant under changing remote statuses
while keeping decoded bodies; (3) the forwarded webflowResponse is the
decoded body of one of the issued requests, the empty object when decoding
failed. -/
theorem claim_C7 :
    (∀ (hm : String → String → String) (net : HttpRequest → Nat × Option Json)
       (cid tok : String) (hdr : Option String) (raw : String) (b : Json)
       (d : NotionData) (wf : Json) (tr : List HttpRequest),
      jsonParse raw = Except.ok b →
      handshakePath hdr b = false →
      isValidSignature hm raw hdr tok = true →
      deriveNotionData b = Except.ok d →
      updateOrCreateWebflowItem net cid d = Except.ok (wf, tr) →
      POST hm net cid tok hdr raw =
        Except.ok (⟨200, RespBody.json
          (Json.obj [("success", Json.bool true), ("webflowResponse", wf)])⟩, tr))
    ∧ (∀ (hm : String → String → String) (net net2 : HttpRequest → Nat × Option Json)
        (cid tok : String) (hdr : Option String) (raw : String),
      (∀ q, (net q).2 = (net2 q).2) →
      POST hm net cid tok hdr raw = POST hm net2 cid tok hdr raw)
    ∧ (∀ (net : HttpRequest → Nat × Option Json) (cid : String) (d : NotionData)
        (wf : Json) (tr : List HttpRequest),
      updateOrCreateWebflowItem net cid d = Except.ok (wf, tr) →
      ∃ q ∈ tr, wf = ((net q).2).getD (Json.obj [])) := by
  refine ⟨?_, ?_, ?_⟩
  · intro hm net cid tok hdr raw b d wf tr hp hhs hv hd hu
    rw [POST, hp]
    simp only [hhs, Bool.false_eq_true, if_false, ite_false, hv]
    rw [if_neg (fun h => Bool.noConfusion h)]
    simp only [hd, hu]
  · intro hm net net2 cid tok hdr raw h
    simp only [POST, upsertSndAgree net net2 h]
  · intro net cid d wf tr hu
    rw [updateOrCreateWebflowItem] at hu
    cases hh : webflowLookupHead (((net (wfGetReq cid d)).2).getD (Json.obj [])) with
    | some item =>
      simp only [hh] at hu
      cases hmem : jsMember (JsVal.val item) "_id" with
      | error e =>
        simp only [hmem, errBind] at hu
        exact Except.noConfusion hu
      | ok idv =>
        simp only [hmem, okBind, pure, Except.pure, Except.ok.injEq, Prod.mk.injEq] at hu
        refine ⟨wfPatchReq cid d idv, ?_, hu.1.symm⟩
        rw [← hu.2]
        simp
    | none =>
      simp only [hh] at hu
      simp only [pure, Except.pure, Except.ok.injEq, Prod.mk.injEq] at hu
      refine ⟨wfPostReq cid d, ?_, hu.1.symm⟩
      rw [← hu.2]
      simp

/-- Witness for the amended claim C7: a verified request against a remote
answering status 500 on the lookup and 404 with a decodable error body on
the write still yields 200 with that decoded body forwarded. -/
theorem claim_C7_witness :
    POST hm8 net65 "c" "s" (some "sha256=") RAW5
      = Except.ok (⟨200, RespBody.json
          (Json.obj [("success", Json.bool true),
            ("webflowResponse", Json.obj [("ok", Json.bool false)])])⟩,
        [wfGetReq "c" REC5, wfPatchReq "c" REC5 (JsVal.val (Json.str "i1"))]) :=
  claim_C7.1 hm8 net65 "c" "s" (some "sha256=") RAW5 BODY5 REC5
    (Json.obj [("ok", Json.bool false)])
    [wfGetReq "c" REC5, wfPatchReq "c" REC5 (JsVal.val (Json.str "i1"))]
    rfl rfl (by decide) rfl rfl

/-- Counterexample to claim C8 as stated: a successfully verified request
(signature accepted) whose body has properties present but no Name makes
the derivation throw — the handler faults instead of continuing with
absent fields. -/
theorem claim_C8_cex :
    isValidSignature hm8 RAW8 (some "sha256=") "s" = true
    ∧ POST hm8 net0 "c" "s" (some "sha256=") RAW8
        = Except.error "TypeError: Cannot read properties of undefined (reading title)" :=
  ⟨by decide, rfl⟩

/-- Claim C8 (amended): derivation tolerates an absent properties object
(all of title/slug/content come out undefined), an empty title array, an
absent Slug/Content property, an empty rich_text array and a first run
without plain_text — in all those cases the fields are simply undefined
and handling continues to the upsert (last conjunct).  It does NOT
tolerate properties without Name (or Name without title, or a present
Slug/Content without rich_text), where it faults: see the
counterexample. -/
theorem claim_C8 :
    (∀ fs : List (String × Json), jsLookup fs "properties" = none →
      deriveNotionData (Json.obj fs) =
        Except.ok ⟨jsValOfOpt (jsLookup fs "pageId"), JsVal.undef, JsVal.undef, JsVal.undef⟩)
    ∧ deriveNotionData (Json.obj [("pageId", Json.str "p"),
        ("properties", Json.obj [("Name", Json.obj [("title", Json.arr [])])])])
      = Except.ok ⟨JsVal.val (Json.str "p"), JsVal.undef, JsVal.undef, JsVal.undef⟩
    ∧ deriveNotionData (Json.obj [("pageId", Json.str "p"),
        ("properties", Json.obj [
          ("Name", Json.obj [("title", Json.arr [Json.obj []])]),
          ("Slug", Json.obj [("rich_text", Json.arr [])])])])
      = Except.ok ⟨JsVal.val (Json.str "p"), JsVal.undef, JsVal.undef, JsVal.undef⟩
    ∧ (∀ (hm : String → String → String) (net : HttpRequest → Nat × Option Json)
        (cid tok : String) (hdr : Option String) (raw : String) (b : Json)
        (d : NotionData),
      jsonParse raw = Except.ok b →
      handshakePath hdr b = false →
      isValidSignature hm raw hdr tok = true →
      deriveNotionData b = Except.ok d →
      POST hm net cid tok hdr raw =
        match updateOrCreateWebflowItem net cid d with
        | Except.error e => Except.error e
        | Except.ok (wf, reqs) =>
          Except.ok (⟨200, RespBody.json
            (Json.obj [("success", Json.bool true), ("webflowResponse", wf)])⟩, reqs)) := by
  refine ⟨?_, rfl, rfl, ?_⟩
  · intro fs h
    simp [deriveNotionData, deriveTitle, deriveSlug, deriveContent, jsMember, h,
      jsValOfOpt, jsNullish, pure, Except.pure]
  · intro hm net cid tok hdr raw b d hp hhs hv hd
    rw [POST, hp]
    simp only [hhs, Bool.false_eq_true, if_false, ite_false, hv]
    rw [if_neg (fun h => Bool.noConfusion h)]
    simp only [hd]

/-- Witness for the amended claim C8: a body without properties derives a
record with only the id set. -/
theorem claim_C8_witness :
    deriveNotionData (Json.obj [("pageId", Json.str "p")])
      = Except.ok ⟨JsVal.val (Json.str "p"), JsVal.undef, JsVal.undef, JsVal.undef⟩ :=
  claim_C8.1 [("pageId", Json.str "p")] rfl
